import Mathlib

/-!
Verification of the restaurant-app backend (three Express/Mongoose variants).

The development shallowly embeds the request handlers of the repository:

* `server.js` and `unnamed/part_000` (identical behavior, the older variants):
  register / login / contact with no email normalization and no redaction of
  the stored password hash on login.  Embedded with a `V1` suffix.
* `unnamed/part_001` (the OTP-capable variant): register / login /
  forgot-password / resend-otp / verify-otp / reset-password, with email
  normalization and password-hash redaction.  Embedded with plain names.

External collaborators (MongoDB, bcryptjs, nodemailer) are modelled as the
spec describes them: the document store is a list of records looked up and
rewritten by the unique email key, the hasher is an injective tagging
function with exact comparison, and mail delivery is a fallible unit whose
failure carries an arbitrary error message.  Timestamps are integer
milliseconds, and JavaScript values relevant to the handlers (undefined,
null, strings, numbers) are embedded explicitly so that the strict-equality
and date-comparison semantics of the source are preserved.
-/

namespace RestaurantApp

/-- Embedding of the JavaScript values that can reach the handlers from a
JSON body or a Mongoose document: `undefined`, `null`, strings and (integer)
numbers. -/
inductive JsVal where
  | undef
  | null
  | str (s : String)
  | num (n : Int)
deriving DecidableEq

/-- Value of the `otp` schema path (a Mongoose `String` field): absent
(`undefined`), explicitly `null`, or a string. -/
inductive OtpVal where
  | undef
  | null
  | str (s : String)
deriving DecidableEq

/-- Value of a Mongoose `Date` field: absent (`undefined`), explicitly
`null`, or a timestamp in integer milliseconds. -/
inductive DateVal where
  | undef
  | null
  | time (t : Int)
deriving DecidableEq

/-- JavaScript strict equality `===` between the stored `user.otp` and the
request-body candidate.  `undefined === undefined` and `null === null` hold;
values of different types are never strictly equal. -/
def otpEq : OtpVal → JsVal → Bool
  | .undef, .undef => true
  | .null, .null => true
  | .str s, .str c => s == c
  | _, _ => false

/-- JavaScript `<` between a `Date`-typed field and the number `Date.now()`:
`undefined` coerces to NaN (every comparison false), `null` coerces to `0`,
and a `Date` coerces to its millisecond value. -/
def dateLt : DateVal → Int → Bool
  | .undef, _ => false
  | .null, now => decide (0 < now)
  | .time t, now => decide (t < now)

/-- JavaScript truthiness-guarded cooldown test
`user.otpResendCooldown && user.otpResendCooldown > Date.now()`:
`undefined`/`null` are falsy, a `Date` object is truthy and compares by its
millisecond value. -/
def cooldownActive : DateVal → Int → Bool
  | .undef, _ => false
  | .null, _ => false
  | .time c, now => decide (now < c)

/-- Whitespace as JavaScript `String.prototype.trim` removes it (the ASCII
part of the WhiteSpace/LineTerminator productions). -/
def isJsWhitespace (c : Char) : Bool :=
  c == ' ' || c == '\t' || c == '\n' || c == '\r' || c == '\x0b' || c == '\x0c'

/-- ASCII lower-casing of one character, as `String.prototype.toLowerCase`
acts on the ASCII range. -/
def toLowerChar (c : Char) : Char :=
  if 'A' ≤ c && c ≤ 'Z' then Char.ofNat (c.toNat + 32) else c

/-- `(email || '').trim().toLowerCase()` — the normalization applied by the
`part_001` variant before every lookup and write, embedded on the character
list of the string. -/
def normalizeEmail (e : String) : String :=
  ⟨(((e.data.dropWhile isJsWhitespace).reverse.dropWhile isJsWhitespace).reverse).map
      toLowerChar⟩

/-- The password hasher is an external collaborator (`bcrypt`/`bcryptjs`).
It is modelled as an injective salted-format tag carrying the cost factor,
so that equal hashes come from equal plaintexts. -/
def bcryptHash (password : String) (cost : Nat) : String :=
  "$2b$" ++ toString cost ++ "$" ++ password

/-- `bcrypt.compare(password, hash)`: succeeds exactly when `hash` is the
hash of `password`. -/
def bcryptCompare (password hash : String) : Bool :=
  hash == bcryptHash password 10

/-- Decimal representation of a natural number, as produced by JavaScript
`Number.prototype.toString()` on a non-negative integer: most significant
digit first, no leading zeros. -/
def numToString (n : Nat) : String :=
  if n = 0 then "0" else ((Nat.digits 10 n).reverse.map Nat.digitChar).asString

/-- `Math.floor(100000 + Math.random() * 900000)` where `r` stands for the
value drawn by `Math.random()` (a real in `[0,1)`, modelled as a rational). -/
def generateOtpNum (r : ℚ) : Int :=
  ⌊(100000 : ℚ) + r * 900000⌋

/-- `Math.floor(100000 + Math.random() * 900000).toString()` — the 6-digit
OTP of `generateAndSendOtp` in the `part_001` variant. -/
def generateOtp (r : ℚ) : String :=
  numToString (generateOtpNum r).toNat

/-- Identity record of the `part_001` variant (`userSchema`): profile
strings, the bcrypt password hash, and the three OTP fields. -/
structure User where
  fullName : String
  username : String
  email : String
  phone : String
  address : String
  password : String
  otp : OtpVal
  otpExpiry : DateVal
  otpResendCooldown : DateVal
deriving DecidableEq

/-- `User.findOne({ email })`: first record whose `email` equals the key. -/
def findOne (db : List User) (e : String) : Option User :=
  db.find? (fun u => u.email == e)

/-- `user.save()` after mutating the document fetched by `findOne`: the
first record whose `email` equals the key is replaced by the mutated
document, in one write. -/
def saveUser : List User → String → User → List User
  | [], _, _ => []
  | v :: rest, e, u => if v.email == e then u :: rest else v :: saveUser rest e u

/-- The three field mutations of `generateAndSendOtp`
(`user.otp = otp; user.otpExpiry = otpExpiry;
user.otpResendCooldown = otpResendCooldown`) applied to a document. -/
def applyOtpIssue (u : User) (code : String) (expiry cooldownUntil : Int) : User :=
  ⟨u.fullName, u.username, u.email, u.phone, u.address, u.password,
    OtpVal.str code, DateVal.time expiry, DateVal.time cooldownUntil⟩

/-- The four field mutations of the `/reset-password` handler
(`user.password = hashedPassword; user.otp = null; user.otpExpiry = null;
user.otpResendCooldown = null`) applied to a document. -/
def applyPasswordReset (u : User) (newHash : String) : User :=
  ⟨u.fullName, u.username, u.email, u.phone, u.address, newHash,
    OtpVal.null, DateVal.null, DateVal.null⟩

/-- Failures thrown by `generateAndSendOtp`: the unknown-email error, the
cooldown error carrying the remaining whole seconds, and an upstream
(database or mail) failure carrying its own message. -/
inductive IssueErr where
  | notFound
  | throttled (remaining : Int)
  | upstream (msg : String)
deriving DecidableEq

/-- `err.message` of the thrown `Error`, as the catch blocks observe it. -/
def IssueErr.message : IssueErr → String
  | .notFound => "User not found"
  | .throttled n =>
      "Please wait " ++ toString n ++ " seconds before requesting a new OTP"
  | .upstream m => m

/-- Successful result of `generateAndSendOtp`:
`{ message: "OTP sent to email", cooldown: 60 }`. -/
structure IssueOk where
  message : String
  cooldown : Nat
deriving DecidableEq

/-- `Math.ceil((user.otpResendCooldown - Date.now()) / 1000)` — the whole
seconds remaining until the cooldown instant `c`, computed at time `now`. -/
def remainingSeconds (c now : Int) : Int :=
  ⌈((c - now : Int) : ℚ) / 1000⌉

/-- The issuance tail of `generateAndSendOtp` once the user is found and the
cooldown has passed: generate the code, set the three OTP fields, persist
them in a single `user.save()`, then send the mail.  `saveRes`/`mailRes`
model the fallibility of the two upstream calls (`none` = success, `some m`
= the call throws an error with message `m`); a failing save leaves the
store unchanged, a failing mail send happens after the save has committed. -/
def issueFresh (db : List User) (email : String) (u : User) (r : ℚ) (now : Int)
    (saveRes mailRes : Option String) : Except IssueErr IssueOk × List User :=
  let otp := generateOtp r
  let otpExpiry := now + 5 * 60 * 1000
  let otpResendCooldown := now + 60 * 1000
  match saveRes with
  | some m => (.error (.upstream m), db)
  | none =>
      let db' := saveUser db email (applyOtpIssue u otp otpExpiry otpResendCooldown)
      match mailRes with
      | some m => (.error (.upstream m), db')
      | none => (.ok ⟨"OTP sent to email", 60⟩, db')

/-- `generateAndSendOtp(rawEmail)` of the `part_001` variant: normalize the
email, look the user up, throw `User not found` if absent, throw the
cooldown error with the remaining whole seconds if
`otpResendCooldown && otpResendCooldown > Date.now()`, and otherwise issue
a fresh code via `issueFresh`. -/
def generateAndSendOtp (db : List User) (rawEmail : String) (r : ℚ) (now : Int)
    (saveRes mailRes : Option String) : Except IssueErr IssueOk × List User :=
  let email := normalizeEmail rawEmail
  match findOne db email with
  | none => (.error .notFound, db)
  | some u =>
      match u.otpResendCooldown with
      | .time c =>
          if now < c then (.error (.throttled (remainingSeconds c now)), db)
          else issueFresh db email u r now saveRes mailRes
      | _ => issueFresh db email u r now saveRes mailRes

/-- Request body of `POST /register` (all six fields). -/
structure RegisterInput where
  fullName : String
  username : String
  email : String
  phone : String
  address : String
  password : String
deriving DecidableEq

/-- `POST /register` of the `part_001` variant: normalize the email, reject
with 400 if a record with that email exists, otherwise hash the password
with cost 10 and append a new record with no OTP state. -/
def register (db : List User) (b : RegisterInput) : (Nat × String) × List User :=
  let e := normalizeEmail b.email
  match findOne db e with
  | some _ => ((400, "Email already registered"), db)
  | none =>
      ((201, "User registered successfully"),
        db ++ [⟨b.fullName, b.username, e, b.phone, b.address,
          bcryptHash b.password 10, OtpVal.undef, DateVal.undef, DateVal.undef⟩])

/-- Serialization of a `part_001` user document (`user.toObject()`): every
schema path with its value. -/
def userToObject (u : User) : List (String × JsVal) :=
  [("fullName", .str u.fullName), ("username", .str u.username),
   ("email", .str u.email), ("phone", .str u.phone),
   ("address", .str u.address), ("password", .str u.password),
   ("otp", match u.otp with
           | .undef => .undef | .null => .null | .str s => .str s),
   ("otpExpiry", match u.otpExpiry with
                 | .undef => .undef | .null => .null | .time t => .num t),
   ("otpResendCooldown", match u.otpResendCooldown with
                         | .undef => .undef | .null => .null | .time t => .num t)]

/-- `const { password: _p, ...safeUser } = user.toObject()` — the rest
pattern keeps every key except `password`. -/
def safeUserObject (u : User) : List (String × JsVal) :=
  (userToObject u).filter (fun kv => !(kv.1 == "password"))

/-- Response of `POST /login`: HTTP status, message, and the serialized user
object when login succeeds. -/
structure LoginResp where
  status : Nat
  message : String
  user : Option (List (String × JsVal))
deriving DecidableEq

/-- `POST /login` of the `part_001` variant: normalize the email, look the
user up, reject with 400 on a missing user or a failing hash comparison, and
on success return the user object with the `password` key stripped. -/
def login (db : List User) (e pw : String) : LoginResp × List User :=
  let ne := normalizeEmail e
  match findOne db ne with
  | none => (⟨400, "Invalid email or password", none⟩, db)
  | some u =>
      if bcryptCompare pw u.password then
        (⟨200, "Login successful", some (safeUserObject u)⟩, db)
      else (⟨400, "Invalid email or password", none⟩, db)

/-- `POST /verify-otp` of the `part_001` variant: normalize the email, look
the user up; `!user || user.otp !== otp` yields 400 `Invalid OTP`;
`user.otpExpiry < Date.now()` yields 400 `OTP has expired`; otherwise 200.
The handler performs no write, so the store passes through unchanged. -/
def verifyOtp (db : List User) (e : String) (cand : JsVal) (now : Int) :
    (Nat × String) × List User :=
  match findOne db (normalizeEmail e) with
  | none => ((400, "Invalid OTP"), db)
  | some u =>
      if otpEq u.otp cand then
        if dateLt u.otpExpiry now then ((400, "OTP has expired"), db)
        else ((200, "OTP verified successfully"), db)
      else ((400, "Invalid OTP"), db)

/-- `POST /reset-password` of the `part_001` variant: normalize the email,
look the user up (404 if absent), hash the new password with cost 10, set
the hash and null out the three OTP fields on the document, and persist all
four mutations in a single `user.save()`. -/
def resetPassword (db : List User) (e pw : String) : (Nat × String) × List User :=
  let ne := normalizeEmail e
  match findOne db ne with
  | none => ((404, "User not found"), db)
  | some u =>
      ((200, "Password reset successful"),
        saveUser db ne (applyPasswordReset u (bcryptHash pw 10)))

/-- Response of the two OTP-issuing endpoints: status, message, and the
`cooldown` field present on success. -/
structure OtpHttpResp where
  status : Nat
  message : String
  cooldown : Option Nat
deriving DecidableEq

/-- `POST /forgot-password`: normalize the email, run `generateAndSendOtp`,
return its result on success, and on failure map the message
`User not found` to 404 and everything else to 500. -/
def forgotPassword (db : List User) (e : String) (r : ℚ) (now : Int)
    (saveRes mailRes : Option String) : OtpHttpResp × List User :=
  let email := normalizeEmail e
  match generateAndSendOtp db email r now saveRes mailRes with
  | (.ok res, db') => (⟨200, res.message, some res.cooldown⟩, db')
  | (.error err, db') =>
      (⟨if err.message == "User not found" then 404 else 500, err.message, none⟩, db')

/-- `POST /resend-otp`: normalize the email, run `generateAndSendOtp`,
return its result on success, and map every failure to 500. -/
def resendOtp (db : List User) (e : String) (r : ℚ) (now : Int)
    (saveRes mailRes : Option String) : OtpHttpResp × List User :=
  let email := normalizeEmail e
  match generateAndSendOtp db email r now saveRes mailRes with
  | (.ok res, db') => (⟨200, res.message, some res.cooldown⟩, db')
  | (.error err, db') => (⟨500, err.message, none⟩, db')

/-- Identity record of the older `server.js` / `part_000` variants: the six
profile fields only, no OTP state. -/
structure UserV1 where
  fullName : String
  username : String
  email : String
  phone : String
  address : String
  password : String
deriving DecidableEq

/-- `User.findOne({ email })` in the older variants: the raw, unnormalized
email is the key. -/
def findOneV1 (db : List UserV1) (e : String) : Option UserV1 :=
  db.find? (fun u => u.email == e)

/-- `POST /register` of the older variants: no normalization — the raw email
is looked up and stored as given, so two casings of one address are two
distinct keys (MongoDB string equality and the unique index on `email` are
case-sensitive). -/
def registerV1 (db : List UserV1) (b : RegisterInput) : (Nat × String) × List UserV1 :=
  match findOneV1 db b.email with
  | some _ => ((400, "Email already registered"), db)
  | none =>
      ((201, "User registered successfully"),
        db ++ [⟨b.fullName, b.username, b.email, b.phone, b.address,
          bcryptHash b.password 10⟩])

/-- Serialization of an older-variant user document: every schema path,
including the stored password hash. -/
def userV1ToObject (u : UserV1) : List (String × JsVal) :=
  [("fullName", .str u.fullName), ("username", .str u.username),
   ("email", .str u.email), ("phone", .str u.phone),
   ("address", .str u.address), ("password", .str u.password)]

/-- `POST /login` of the older variants: on success the handler sends the
user document itself (`res.status(200).json({ message, user })`) with no
field stripped. -/
def loginV1 (db : List UserV1) (e pw : String) : LoginResp × List UserV1 :=
  match findOneV1 db e with
  | none => (⟨400, "Invalid email or password. Please register first.", none⟩, db)
  | some u =>
      if bcryptCompare pw u.password then
        (⟨200, "Login successful", some (userV1ToObject u)⟩, db)
      else (⟨400, "Invalid email or password. Please register first.", none⟩, db)

/-! ## Store lemmas -/

/-- A record returned by `findOne db e` carries the key `e`. -/
theorem findOne_email {db : List User} {e : String} {u : User}
    (h : findOne db e = some u) : (u.email == e) = true := by
  unfold findOne at h
  induction db with
  | nil => simp at h
  | cons v rest ih =>
      simp only [List.find?_cons] at h
      cases hv : (v.email == e) with
      | true =>
          rw [hv] at h
          have hvu : v = u := by simpa using h
          rw [← hvu]; exact hv
      | false =>
          rw [hv] at h
          exact ih (by simpa using h)

/-- Writing back a mutated document under the key it was fetched by makes it
the record the next `findOne` returns. -/
theorem findOne_saveUser {db : List User} {e : String} {u u' : User}
    (h : findOne db e = some u) (he : u'.email = u.email) :
    findOne (saveUser db e u') e = some u' := by
  unfold findOne at h ⊢
  induction db with
  | nil => simp at h
  | cons v rest ih =>
      unfold saveUser
      simp only [List.find?_cons] at h
      cases hv : (v.email == e) with
      | true =>
          rw [if_pos rfl]
          rw [hv] at h
          have hvu : v = u := by simpa using h
          have hu' : (u'.email == e) = true := by rw [he, ← hvu]; exact hv
          simp only [List.find?_cons, hu']
      | false =>
          rw [if_neg (by simp)]
          rw [hv] at h
          simp only [List.find?_cons, hv]
          exact ih (by simpa using h)

/-! ## Branch lemmas for `generateAndSendOtp` -/

/-- Unknown email: `generateAndSendOtp` throws `User not found` and leaves
the store unchanged. -/
theorem generateAndSendOtp_notFound {db : List User} {e : String} {r : ℚ} {now : Int}
    {sv ml : Option String} (h : findOne db (normalizeEmail e) = none) :
    generateAndSendOtp db e r now sv ml = (.error .notFound, db) := by
  simp only [generateAndSendOtp, h]

/-- Active cooldown: `generateAndSendOtp` throws the cooldown error with the
remaining whole seconds and leaves the store unchanged, whatever the stored
code and expiry are. -/
theorem generateAndSendOtp_throttled {db : List User} {e : String} {r : ℚ}
    {now c : Int} {sv ml : Option String} {u : User}
    (hu : findOne db (normalizeEmail e) = some u)
    (hc : u.otpResendCooldown = .time c) (hlt : now < c) :
    generateAndSendOtp db e r now sv ml =
      (.error (.throttled (remainingSeconds c now)), db) := by
  simp only [generateAndSendOtp, hu, hc, if_pos hlt]

/-- Found user, no active cooldown, both upstream calls succeeding: the code
and both timestamps are persisted together in one write and the caller gets
cooldown 60. -/
theorem generateAndSendOtp_success {db : List User} {e : String} {r : ℚ}
    {now : Int} {u : User}
    (hu : findOne db (normalizeEmail e) = some u)
    (hcd : cooldownActive u.otpResendCooldown now = false) :
    generateAndSendOtp db e r now none none =
      (.ok ⟨"OTP sent to email", 60⟩,
        saveUser db (normalizeEmail e)
          (applyOtpIssue u (generateOtp r) (now + 5 * 60 * 1000) (now + 60 * 1000))) := by
  rcases hc : u.otpResendCooldown with _ | _ | c
  · simp only [generateAndSendOtp, hu, hc, issueFresh]
  · simp only [generateAndSendOtp, hu, hc, issueFresh]
  · rw [hc] at hcd
    unfold cooldownActive at hcd
    simp only [decide_eq_false_iff_not] at hcd
    simp only [generateAndSendOtp, hu, hc, if_neg hcd, issueFresh]

/-! ## The generated OTP string -/

/-- The decimal representation of a natural number never has a leading zero,
so it is never the all-zero 6-character string. -/
theorem numToString_ne_zeros (n : Nat) : numToString n ≠ "000000" := by
  unfold numToString
  by_cases h0 : n = 0
  · rw [if_pos h0]
    decide
  · rw [if_neg h0]
    intro hcontra
    have hdata : (Nat.digits 10 n).reverse.map Nat.digitChar = "000000".data :=
      congrArg String.data hcontra
    have hhead : ((Nat.digits 10 n).reverse.map Nat.digitChar).head? = some '0' := by
      rw [hdata]
      rfl
    rw [List.map_reverse, ← List.getLast?_eq_head?_reverse, List.getLast?_map] at hhead
    rcases Option.map_eq_some'.mp hhead with ⟨d, hd, hchar⟩
    have hdmem : d ∈ Nat.digits 10 n := List.mem_of_getLast?_eq_some hd
    have hdlt : d < 10 := Nat.digits_lt_base (by norm_num) hdmem
    have hne : (Nat.digits 10 n) ≠ [] := Nat.digits_ne_nil_iff_ne_zero.mpr h0
    have hdlast : d = (Nat.digits 10 n).getLast hne := by
      have := List.getLast?_eq_getLast (Nat.digits 10 n) hne
      rw [this] at hd
      exact Option.some.inj hd.symm
    have hdne : d ≠ 0 := by
      rw [hdlast]
      exact Nat.getLast_digit_ne_zero 10 h0
    clear hd hdlast hne hdata hcontra hhead hdmem
    interval_cases d <;> first
      | exact absurd rfl hdne
      | exact absurd hchar (by decide)

/-- For `r ∈ [0,1)`, `Math.floor(100000 + r * 900000)` lies in
`[100000, 999999]`. -/
theorem generateOtpNum_bounds {r : ℚ} (h0 : 0 ≤ r) (h1 : r < 1) :
    100000 ≤ generateOtpNum r ∧ generateOtpNum r ≤ 999999 := by
  unfold generateOtpNum
  constructor
  · rw [Int.le_floor]
    push_cast
    nlinarith
  · have : (100000 : ℚ) + r * 900000 < 1000000 := by nlinarith
    have hlt : ⌊(100000 : ℚ) + r * 900000⌋ < 1000000 := by
      rw [Int.floor_lt]
      push_cast
      exact this
    omega

/-- Every value of `[100000, 999999]` is hit: drawing
`r = (m - 100000) / 900000` produces exactly `m`. -/
theorem generateOtpNum_surjective {m : Nat} (hlo : 100000 ≤ m) (hhi : m ≤ 999999) :
    0 ≤ ((m : ℚ) - 100000) / 900000 ∧ ((m : ℚ) - 100000) / 900000 < 1 ∧
      generateOtpNum (((m : ℚ) - 100000) / 900000) = m := by
  have hm : (100000 : ℚ) ≤ (m : ℚ) := by exact_mod_cast hlo
  have hm' : (m : ℚ) ≤ 999999 := by exact_mod_cast hhi
  refine ⟨div_nonneg (by linarith) (by norm_num), ?_, ?_⟩
  · rw [div_lt_one (by norm_num)]
    linarith
  · unfold generateOtpNum
    rw [div_mul_cancel₀ _ (by norm_num : (900000 : ℚ) ≠ 0)]
    have : (100000 : ℚ) + ((m : ℚ) - 100000) = (m : ℚ) := by ring
    rw [this, Int.floor_natCast]

/-! ## Hashes, error messages, and remaining-seconds arithmetic -/

/-- The modelled hasher is injective at the cost used by the handlers. -/
theorem bcryptHash_inj {a b : String} (h : bcryptHash a 10 = bcryptHash b 10) :
    a = b := by
  unfold bcryptHash at h
  have hd := congrArg String.data h
  simp only [String.data_append, List.append_assoc] at hd
  exact String.ext
    (List.append_cancel_left (List.append_cancel_left (List.append_cancel_left hd)))

/-- `bcrypt.compare` accepts the plaintext whose hash is stored. -/
theorem bcryptCompare_same (pw : String) :
    bcryptCompare pw (bcryptHash pw 10) = true := by
  unfold bcryptCompare
  exact beq_self_eq_true _

/-- `bcrypt.compare` rejects any other plaintext. -/
theorem bcryptCompare_other {pw pw' : String} (h : pw ≠ pw') :
    bcryptCompare pw (bcryptHash pw' 10) = false := by
  unfold bcryptCompare
  rw [beq_eq_false_iff_ne]
  intro hcontra
  exact h (bcryptHash_inj hcontra).symm

/-- The cooldown error message is never the unknown-email message, so the
`forgot-password` status dispatch on `err.message` sends it to 500. -/
theorem throttled_message_ne_notFound (n : Int) :
    ((IssueErr.throttled n).message == "User not found") = false := by
  unfold IssueErr.message
  rw [beq_eq_false_iff_ne]
  intro h
  have hd := congrArg String.data h
  rw [String.data_append, String.data_append] at hd
  have hP : "Please wait ".data = 'P' :: "lease wait ".data := rfl
  have hU : "User not found".data = 'U' :: "ser not found".data := rfl
  rw [hP, hU, List.cons_append, List.cons_append] at hd
  injection hd with h1 h2
  exact absurd h1 (by decide)

/-- With the cooldown instant still ahead, at least one whole second is
reported as remaining. -/
theorem remainingSeconds_pos {c now : Int} (h : now < c) :
    1 ≤ remainingSeconds c now := by
  unfold remainingSeconds
  have hq : (0 : ℚ) < ((c - now : Int) : ℚ) / 1000 := by
    apply div_pos
    · exact_mod_cast sub_pos.mpr h
    · norm_num
  have := Int.lt_ceil.mpr (by exact_mod_cast hq : ((0 : Int) : ℚ) < ((c - now : Int) : ℚ) / 1000)
  omega

/-- The reported remaining seconds never increase as time advances. -/
theorem remainingSeconds_antitone {c t1 t2 : Int} (h : t1 ≤ t2) :
    remainingSeconds c t2 ≤ remainingSeconds c t1 := by
  unfold remainingSeconds
  apply Int.ceil_mono
  have h' : (t1 : ℚ) ≤ (t2 : ℚ) := by exact_mod_cast h
  have hnum : ((c - t2 : Int) : ℚ) ≤ ((c - t1 : Int) : ℚ) := by
    push_cast
    linarith
  exact (div_le_div_iff_of_pos_right (by norm_num : (0 : ℚ) < 1000)).mpr hnum

/-- Once at least a full second has passed, the reported remaining seconds
strictly decrease. -/
theorem remainingSeconds_strict {c t1 t2 : Int} (h : t1 + 1000 ≤ t2) :
    remainingSeconds c t2 < remainingSeconds c t1 := by
  have key : ((c - t2 : Int) : ℚ) / 1000 + 1 ≤ ((c - t1 : Int) : ℚ) / 1000 := by
    have h' : (t1 : ℚ) + 1000 ≤ (t2 : ℚ) := by exact_mod_cast h
    have hsub : ((c - t2 : Int) : ℚ) + 1000 ≤ ((c - t1 : Int) : ℚ) := by
      push_cast
      linarith
    calc ((c - t2 : Int) : ℚ) / 1000 + 1 = (((c - t2 : Int) : ℚ) + 1000) / 1000 := by ring
      _ ≤ ((c - t1 : Int) : ℚ) / 1000 :=
          (div_le_div_iff_of_pos_right (by norm_num : (0 : ℚ) < 1000)).mpr hsub
  have hmono := Int.ceil_mono key
  rw [Int.ceil_add_one] at hmono
  unfold remainingSeconds
  omega

/-- Within a 60-second cooldown window, at most 60 seconds are reported. -/
theorem remainingSeconds_le_60 {c now : Int} (h : c ≤ now + 60000) :
    remainingSeconds c now ≤ 60 := by
  unfold remainingSeconds
  rw [Int.ceil_le]
  rw [div_le_iff₀ (by norm_num : (0 : ℚ) < 1000)]
  have h' : (c : ℚ) ≤ (now : ℚ) + 60000 := by exact_mod_cast h
  push_cast
  linarith

/-! ## Branch lemmas for `verifyOtp` -/

/-- No matching identity: 400 `Invalid OTP`, store unchanged. -/
theorem verifyOtp_noUser {db : List User} {e : String} {cand : JsVal} {now : Int}
    (hu : findOne db (normalizeEmail e) = none) :
    verifyOtp db e cand now = ((400, "Invalid OTP"), db) := by
  simp [verifyOtp, hu]

/-- Stored code not strictly equal to the candidate: 400 `Invalid OTP`. -/
theorem verifyOtp_mismatch {db : List User} {e : String} {cand : JsVal} {now : Int}
    {u : User} (hu : findOne db (normalizeEmail e) = some u)
    (hq : otpEq u.otp cand = false) :
    verifyOtp db e cand now = ((400, "Invalid OTP"), db) := by
  simp [verifyOtp, hu, hq]

/-- Codes strictly equal but `otpExpiry < now`: 400 `OTP has expired`. -/
theorem verifyOtp_expired {db : List User} {e : String} {cand : JsVal} {now : Int}
    {u : User} (hu : findOne db (normalizeEmail e) = some u)
    (hq : otpEq u.otp cand = true) (hd : dateLt u.otpExpiry now = true) :
    verifyOtp db e cand now = ((400, "OTP has expired"), db) := by
  simp [verifyOtp, hu, hq, hd]

/-- Codes strictly equal and expiry not strictly past: 200 success. -/
theorem verifyOtp_ok {db : List User} {e : String} {cand : JsVal} {now : Int}
    {u : User} (hu : findOne db (normalizeEmail e) = some u)
    (hq : otpEq u.otp cand = true) (hd : dateLt u.otpExpiry now = false) :
    verifyOtp db e cand now = ((200, "OTP verified successfully"), db) := by
  simp [verifyOtp, hu, hq, hd]

/-! ## Sample records used by the concrete evaluations -/

/-- A concrete OTP-variant identity record with an active code expiring at
t = 1000. -/
def sampleUser : User :=
  ⟨"Ann", "ann", "a@x.com", "1", "addr", bcryptHash "pw1" 10,
    OtpVal.str "123456", DateVal.time 1000, DateVal.undef⟩

/-- A concrete OTP-variant identity record with no OTP state at all. -/
def sampleFreshUser : User :=
  ⟨"Bea", "bea", "b@x.com", "2", "addr2", bcryptHash "pw2" 10,
    OtpVal.undef, DateVal.undef, DateVal.undef⟩

/-- A concrete OTP-variant identity record whose code is already expired
(t = 50) while its resend cooldown still runs until t = 60000. -/
def sampleCooldownUser : User :=
  ⟨"Cal", "cal", "c@x.com", "3", "addr3", bcryptHash "pw3" 10,
    OtpVal.str "654321", DateVal.time 50, DateVal.time 60000⟩

/-- A concrete older-variant identity record, stored under a mixed-case
email as the older variants store it. -/
def sampleUserV1 : UserV1 :=
  ⟨"Ann", "ann", "a@X.COM", "1", "addr", bcryptHash "pw1" 10⟩

/-! ## Claims -/

/-- C1: the claim says every variant's successful login response has the
password-hash field stripped.  The `part_001` variant does strip it, but the
`server.js` / `part_000` login handlers return the user document itself:
the successful response body contains the `password` key with the stored
bcrypt hash.  The spec calls the redaction a non-optional correctness
requirement, so this is a bug in the older variants' code, exhibited here at
a concrete login. -/
theorem C1_old_login_returns_stored_hash :
    (loginV1 [sampleUserV1] "a@X.COM" "pw1").1.status = 200
  ∧ ("password", JsVal.str (bcryptHash "pw1" 10)) ∈
      ((loginV1 [sampleUserV1] "a@X.COM" "pw1").1.user.getD [])
  ∧ (login [sampleUser] "a@x.com" "pw1").1.status = 200
  ∧ "password" ∉
      (((login [sampleUser] "a@x.com" "pw1").1.user.getD []).map Prod.fst) := by
  refine ⟨rfl, by decide, rfl, by decide⟩

/-- C3: the claim says registering `a@X.COM` and then `a@x.com` rejects the
second call in every variant.  The `part_001` variant normalizes and does
reject (400, store unchanged); the `server.js` / `part_000` variants look up
and store the raw email, so the second registration also succeeds (201) and
a second record is created.  The spec says emails must be normalized before
every lookup/write, so this is a bug in the older variants' code. -/
theorem C3_old_register_allows_case_duplicate :
    (registerV1 [] ⟨"A", "a", "a@X.COM", "1", "ad", "pw"⟩).1.1 = 201
  ∧ (registerV1 (registerV1 [] ⟨"A", "a", "a@X.COM", "1", "ad", "pw"⟩).2
      ⟨"A", "a", "a@x.com", "1", "ad", "pw"⟩).1.1 = 201
  ∧ (registerV1 (registerV1 [] ⟨"A", "a", "a@X.COM", "1", "ad", "pw"⟩).2
      ⟨"A", "a", "a@x.com", "1", "ad", "pw"⟩).2.length = 2
  ∧ (register [] ⟨"A", "a", "a@X.COM", "1", "ad", "pw"⟩).1.1 = 201
  ∧ (register (register [] ⟨"A", "a", "a@X.COM", "1", "ad", "pw"⟩).2
      ⟨"A", "a", "a@x.com", "1", "ad", "pw"⟩).1.1 = 400
  ∧ (register (register [] ⟨"A", "a", "a@X.COM", "1", "ad", "pw"⟩).2
      ⟨"A", "a", "a@x.com", "1", "ad", "pw"⟩).2
      = (register [] ⟨"A", "a", "a@X.COM", "1", "ad", "pw"⟩).2 :=
  ⟨rfl, rfl, rfl, rfl, rfl, rfl⟩

/-- C2, counterexample: the claim says verification fails with `Expired` at
the exact instant the stored expiry equals `now`, and fails with
`InvalidCode` when the stored code is absent even against an absent
candidate.  The handler compares with strict `<` and strict `!==`, so both
of these concrete requests succeed with 200 instead. -/
theorem C2_counterexample :
    (verifyOtp [sampleUser] "a@x.com" (JsVal.str "123456") 1000).1
      = (200, "OTP verified successfully")
  ∧ (verifyOtp [sampleFreshUser] "b@x.com" JsVal.undef 1000).1
      = (200, "OTP verified successfully") :=
  ⟨rfl, rfl⟩

/-- C6, counterexample: the claim says the remaining-seconds count strictly
decreases for two throttled attempts at increasing times.  With the cooldown
instant at t = 60000, attempts at t = 100 and t = 200 both report
`Math.ceil(59900/1000) = Math.ceil(59800/1000) = 60` remaining seconds — the
count did not strictly decrease. -/
theorem C6_counterexample :
    (generateAndSendOtp [sampleCooldownUser] "c@x.com" 0 100 none none).1
      = .error (.throttled 60)
  ∧ (generateAndSendOtp [sampleCooldownUser] "c@x.com" 0 200 none none).1
      = .error (.throttled 60)
  ∧ ¬ ((60 : Int) < 60) := by
  have h1 : remainingSeconds 60000 100 = 60 := by
    unfold remainingSeconds
    norm_num
    rw [Int.ceil_eq_iff]
    norm_num
  have h2 : remainingSeconds 60000 200 = 60 := by
    unfold remainingSeconds
    norm_num
    rw [Int.ceil_eq_iff]
    norm_num
  refine ⟨?_, ?_, by omega⟩
  · rw [← h1]
    rfl
  · rw [← h2]
    rfl

/-- C2 (amended): `verify-otp` fails with `Invalid OTP` exactly when no
identity matches the normalized email or the stored code is not strictly
(`===`) equal to the candidate — where an absent stored code is strictly
equal to an absent candidate and a null stored code to a null candidate; it
fails with `OTP has expired` exactly when the codes are strictly equal and
the stored expiry compares strictly below now (a null expiry coerces to time
0, an absent expiry never compares as past); in every other case — including
the exact instant the expiry equals now — it succeeds. -/
theorem C2_amended_characterization (db : List User) (e : String) (cand : JsVal)
    (now : Int) :
    ((verifyOtp db e cand now).1 = (400, "Invalid OTP") ↔
      (findOne db (normalizeEmail e) = none ∨
        ∃ u, findOne db (normalizeEmail e) = some u ∧ otpEq u.otp cand = false))
  ∧ ((verifyOtp db e cand now).1 = (400, "OTP has expired") ↔
      ∃ u, findOne db (normalizeEmail e) = some u ∧ otpEq u.otp cand = true ∧
        dateLt u.otpExpiry now = true)
  ∧ ((verifyOtp db e cand now).1 = (200, "OTP verified successfully") ↔
      ∃ u, findOne db (normalizeEmail e) = some u ∧ otpEq u.otp cand = true ∧
        dateLt u.otpExpiry now = false)
  ∧ (∀ s c : String, otpEq (.str s) (.str c) = true ↔ s = c)
  ∧ otpEq .undef .undef = true
  ∧ otpEq .null .null = true
  ∧ (∀ s : String, otpEq .undef (.str s) = false ∧ otpEq .null (.str s) = false
      ∧ otpEq (.str s) .undef = false ∧ otpEq (.str s) .null = false)
  ∧ (∀ t : Int, dateLt (.time t) now = true ↔ t < now)
  ∧ dateLt .undef now = false
  ∧ (dateLt .null now = true ↔ 0 < now) := by
  refine ⟨?_, ?_, ?_, ?_, rfl, rfl, fun s => ⟨rfl, rfl, rfl, rfl⟩, ?_, rfl, ?_⟩
  · cases hu : findOne db (normalizeEmail e) with
    | none => simp [verifyOtp_noUser hu]
    | some u =>
        cases hq : otpEq u.otp cand with
        | false => simp [verifyOtp_mismatch hu hq, hq]
        | true =>
            cases hd : dateLt u.otpExpiry now with
            | false => simp [verifyOtp_ok hu hq hd, hq]
            | true => simp [verifyOtp_expired hu hq hd, hq]
  · cases hu : findOne db (normalizeEmail e) with
    | none => simp [verifyOtp_noUser hu]
    | some u =>
        cases hq : otpEq u.otp cand with
        | false => simp [verifyOtp_mismatch hu hq, hq]
        | true =>
            cases hd : dateLt u.otpExpiry now with
            | false => simp [verifyOtp_ok hu hq hd, hq, hd]
            | true => simp [verifyOtp_expired hu hq hd, hq, hd]
  · cases hu : findOne db (normalizeEmail e) with
    | none => simp [verifyOtp_noUser hu]
    | some u =>
        cases hq : otpEq u.otp cand with
        | false => simp [verifyOtp_mismatch hu hq, hq]
        | true =>
            cases hd : dateLt u.otpExpiry now with
            | false => simp [verifyOtp_ok hu hq hd, hq, hd]
            | true => simp [verifyOtp_expired hu hq hd, hq, hd]
  · intro s c
    simp [otpEq]
  · intro t
    simp [dateLt]
  · simp [dateLt]

/-- C7: `verify-otp` never writes to the store in any outcome, and a
verification that succeeds at one time succeeds again on the resulting store
at any time at which the stored expiry has still not strictly passed: the
check is non-consuming, so a still-valid code validates repeatedly. -/
theorem C7_verify_readonly_and_repeatable (db : List User) (e : String)
    (cand : JsVal) (now now' : Int) :
    (verifyOtp db e cand now).2 = db
  ∧ (∀ u, findOne db (normalizeEmail e) = some u → otpEq u.otp cand = true →
      dateLt u.otpExpiry now = false → dateLt u.otpExpiry now' = false →
      (verifyOtp db e cand now).1 = (200, "OTP verified successfully")
      ∧ (verifyOtp ((verifyOtp db e cand now).2) e cand now').1
          = (200, "OTP verified successfully")) := by
  have hframe : (verifyOtp db e cand now).2 = db := by
    cases hu : findOne db (normalizeEmail e) with
    | none => rw [verifyOtp_noUser hu]
    | some u =>
        cases hq : otpEq u.otp cand with
        | false => rw [verifyOtp_mismatch hu hq]
        | true =>
            cases hd : dateLt u.otpExpiry now with
            | false => rw [verifyOtp_ok hu hq hd]
            | true => rw [verifyOtp_expired hu hq hd]
  refine ⟨hframe, ?_⟩
  intro u hu hq hd hd'
  have h1 := verifyOtp_ok hu hq hd
  have h2 := verifyOtp_ok hu hq hd'
  constructor
  · rw [h1]
  · rw [hframe, h2]

/-- C4, counterexample: the claim says every string from `"000000"` to
`"999999"` is a possible output, leading zeros permitted.  The generator
floors `100000 + r * 900000`, a number whose decimal representation never
has a leading zero, so `"000000"` is produced by no draw `r ∈ [0,1)`. -/
theorem C4_counterexample :
    (∃ r : ℚ, 0 ≤ r ∧ r < 1 ∧ generateOtp r = "000000") ↔ False := by
  constructor
  · rintro ⟨r, h0, h1, heq⟩
    exact numToString_ne_zeros (generateOtpNum r).toNat heq
  · intro h
    exact h.elim

/-- C4 (amended): every successful issuance draws a code that is the decimal
string of an integer in `[100000, 999999]` — six digits, first digit 1–9, no
leading zeros — and conversely every such value is reachable by some draw;
the code is handled as a string throughout. -/
theorem C4_amended_range (r : ℚ) (h0 : 0 ≤ r) (h1 : r < 1) :
    (∃ n : Nat, 100000 ≤ n ∧ n ≤ 999999 ∧ generateOtp r = numToString n)
  ∧ (∀ m : Nat, 100000 ≤ m → m ≤ 999999 →
      ∃ q : ℚ, 0 ≤ q ∧ q < 1 ∧ generateOtp q = numToString m) := by
  constructor
  · obtain ⟨hlo, hhi⟩ := generateOtpNum_bounds h0 h1
    exact ⟨(generateOtpNum r).toNat, by omega, by omega, rfl⟩
  · intro m hlo hhi
    obtain ⟨hq0, hq1, heq⟩ := generateOtpNum_surjective hlo hhi
    refine ⟨((m : ℚ) - 100000) / 900000, hq0, hq1, ?_⟩
    unfold generateOtp
    rw [heq]
    simp

/-- C5: a successful password reset writes the new hash and nulls the three
OTP fields in one `user.save()`; afterwards the previously stored (still
unexpired) code no longer verifies — the cleared field fails the strict
equality — and login accepts the new password and rejects the old one. -/
theorem C5_reset_clears_otp_and_rotates_password (db : List User)
    (e oldPw newPw code : String) (u : User) (now : Int)
    (hu : findOne db (normalizeEmail e) = some u)
    (hne : oldPw ≠ newPw) :
    (resetPassword db e newPw).1 = (200, "Password reset successful")
  ∧ findOne (resetPassword db e newPw).2 (normalizeEmail e)
      = some (applyPasswordReset u (bcryptHash newPw 10))
  ∧ (verifyOtp (resetPassword db e newPw).2 e (JsVal.str code) now).1
      = (400, "Invalid OTP")
  ∧ (login (resetPassword db e newPw).2 e newPw).1.status = 200
  ∧ (login (resetPassword db e newPw).2 e oldPw).1.status = 400 := by
  have hreset : resetPassword db e newPw
      = ((200, "Password reset successful"),
          saveUser db (normalizeEmail e) (applyPasswordReset u (bcryptHash newPw 10))) := by
    simp only [resetPassword, hu]
  have hfind : findOne
      (saveUser db (normalizeEmail e) (applyPasswordReset u (bcryptHash newPw 10)))
      (normalizeEmail e) = some (applyPasswordReset u (bcryptHash newPw 10)) :=
    findOne_saveUser hu rfl
  have hpw : (applyPasswordReset u (bcryptHash newPw 10)).password = bcryptHash newPw 10 := rfl
  refine ⟨by rw [hreset], by rw [hreset]; exact hfind, ?_, ?_, ?_⟩
  · rw [hreset]
    have hmm := @verifyOtp_mismatch
      (saveUser db (normalizeEmail e) (applyPasswordReset u (bcryptHash newPw 10)))
      e (JsVal.str code) now (applyPasswordReset u (bcryptHash newPw 10)) hfind rfl
    rw [hmm]
  · rw [hreset]
    simp only [login]
    rw [hfind]
    simp [hpw, bcryptCompare_same]
  · rw [hreset]
    simp only [login]
    rw [hfind]
    simp [hpw, bcryptCompare_other hne]

/-- C6 (amended): with the cooldown instant `c` still ahead, every issuance
attempt is throttled, reporting `ceil((c - now)/1000)` remaining whole
seconds: at least 1, at most 60 inside a 60-second window, never increasing
as time advances, and strictly decreasing once at least a full second
separates the attempts (two attempts within the same wall-clock second
report the same count). -/
theorem C6_amended_throttle_report (db : List User) (e : String) (r : ℚ)
    (sv ml : Option String) (u : User) (c t1 t2 : Int)
    (hu : findOne db (normalizeEmail e) = some u)
    (hc : u.otpResendCooldown = .time c)
    (h1 : t1 < c) (h2 : t2 < c) (h12 : t1 ≤ t2) :
    (generateAndSendOtp db e r t1 sv ml).1
      = .error (.throttled (remainingSeconds c t1))
  ∧ (generateAndSendOtp db e r t2 sv ml).1
      = .error (.throttled (remainingSeconds c t2))
  ∧ 1 ≤ remainingSeconds c t2
  ∧ remainingSeconds c t2 ≤ remainingSeconds c t1
  ∧ (t1 + 1000 ≤ t2 → remainingSeconds c t2 < remainingSeconds c t1)
  ∧ (c ≤ t1 + 60000 → remainingSeconds c t1 ≤ 60) :=
  ⟨by rw [generateAndSendOtp_throttled hu hc h1],
   by rw [generateAndSendOtp_throttled hu hc h2],
   remainingSeconds_pos h2,
   remainingSeconds_antitone h12,
   fun h => remainingSeconds_strict h,
   fun h => remainingSeconds_le_60 h⟩

/-- C8: a successful issuance at time `now` returns cooldown 60 to the
caller and performs exactly one store write, which installs the fresh code
together with `otpExpiry = now + 5\*60\*1000` and
`otpResendCooldown = now + 60\*1000` on the fetched record. -/
theorem C8_issue_sets_fields_in_one_write (db : List User) (e : String)
    (r : ℚ) (now : Int) (u : User)
    (hu : findOne db (normalizeEmail e) = some u)
    (hcd : cooldownActive u.otpResendCooldown now = false) :
    (generateAndSendOtp db e r now none none).1 = .ok ⟨"OTP sent to email", 60⟩
  ∧ (generateAndSendOtp db e r now none none).2
      = saveUser db (normalizeEmail e)
          (applyOtpIssue u (generateOtp r) (now + 5 * 60 * 1000) (now + 60 * 1000))
  ∧ findOne (generateAndSendOtp db e r now none none).2 (normalizeEmail e)
      = some (applyOtpIssue u (generateOtp r) (now + 5 * 60 * 1000) (now + 60 * 1000)) := by
  have hgen := @generateAndSendOtp_success db e r now u hu hcd
  refine ⟨by rw [hgen], by rw [hgen], ?_⟩
  rw [hgen]
  exact findOne_saveUser hu rfl

/-- C9: `resend-otp` maps every failure of `generateAndSendOtp` — unknown
email, active cooldown, upstream database or mail failure with any message —
to HTTP 500, while `forgot-password` maps the unknown-email failure to 404
(and, for contrast, an active cooldown to 500). -/
theorem C9_resend_500_forgot_404 (db : List User) (e : String) (r : ℚ)
    (now : Int) (sv ml : Option String) :
    (∀ err db', generateAndSendOtp db (normalizeEmail e) r now sv ml = (.error err, db') →
      (resendOtp db e r now sv ml).1.status = 500)
  ∧ (∀ db', generateAndSendOtp db (normalizeEmail e) r now sv ml
        = (.error .notFound, db') →
      (forgotPassword db e r now sv ml).1.status = 404)
  ∧ (∀ n db', generateAndSendOtp db (normalizeEmail e) r now sv ml
        = (.error (.throttled n), db') →
      (forgotPassword db e r now sv ml).1.status = 500) := by
  refine ⟨?_, ?_, ?_⟩
  · intro err db' h
    simp [resendOtp, h]
  · intro db' h
    simp [forgotPassword, h, IssueErr.message]
  · intro n db' h
    simp [forgotPassword, h, throttled_message_ne_notFound n]

/-- C10: the cooldown gate of `generateAndSendOtp` reads only
`otpResendCooldown` — `otpExpiry` is left completely unconstrained in both
branches.  With the cooldown instant ahead, issuance is throttled and writes
nothing even if the stored code has long expired; with the cooldown passed
(or the field null/absent), a fresh code overwrites the old one even if the
old code is still unexpired. -/
theorem C10_cooldown_gate_ignores_expiry (db : List User) (e : String)
    (r : ℚ) (now : Int) (u : User)
    (hu : findOne db (normalizeEmail e) = some u) :
    (∀ c, u.otpResendCooldown = .time c → now < c →
      generateAndSendOtp db e r now none none
        = (.error (.throttled (remainingSeconds c now)), db))
  ∧ (cooldownActive u.otpResendCooldown now = false →
      (generateAndSendOtp db e r now none none).1 = .ok ⟨"OTP sent to email", 60⟩
      ∧ findOne (generateAndSendOtp db e r now none none).2 (normalizeEmail e)
          = some (applyOtpIssue u (generateOtp r)
              (now + 5 * 60 * 1000) (now + 60 * 1000))) := by
  constructor
  · intro c hc hlt
    exact generateAndSendOtp_throttled hu hc hlt
  · intro hcd
    have hgen := @generateAndSendOtp_success db e r now u hu hcd
    refine ⟨by rw [hgen], ?_⟩
    rw [hgen]
    exact findOne_saveUser hu rfl

/-! ## Witnesses: the hypotheses of the claim theorems discharged at
concrete inputs -/

/-- Witness for the amended C4 theorem at the concrete draw `r = 1/2`. -/
theorem C4_amended_range_witness :
    ∃ n : Nat, 100000 ≤ n ∧ n ≤ 999999 ∧ generateOtp (1 / 2) = numToString n :=
  (C4_amended_range (1 / 2) (by norm_num) (by norm_num)).1

/-- Witness for the C5 theorem: resetting `sampleUser`'s password from
`"pw1"` to `"pw2"` yields 200, invalidates the stored code, and rotates
which password logs in. -/
theorem C5_reset_witness :
    (resetPassword [sampleUser] "a@x.com" "pw2").1 = (200, "Password reset successful")
  ∧ (verifyOtp (resetPassword [sampleUser] "a@x.com" "pw2").2 "a@x.com"
      (JsVal.str "123456") 0).1 = (400, "Invalid OTP")
  ∧ (login (resetPassword [sampleUser] "a@x.com" "pw2").2 "a@x.com" "pw2").1.status = 200
  ∧ (login (resetPassword [sampleUser] "a@x.com" "pw2").2 "a@x.com" "pw1").1.status = 400 := by
  obtain ⟨h1, h2, h3, h4, h5⟩ :=
    C5_reset_clears_otp_and_rotates_password [sampleUser] "a@x.com" "pw1" "pw2"
      "123456" sampleUser 0 rfl (by decide)
  exact ⟨h1, h3, h4, h5⟩

/-- Witness for the amended C6 theorem: with the cooldown instant at
t = 60000, attempts at t = 100 and t = 1500 are both throttled and the
second reports strictly fewer remaining seconds. -/
theorem C6_amended_throttle_report_witness :
    (generateAndSendOtp [sampleCooldownUser] "c@x.com" 0 100 none none).1
      = .error (.throttled (remainingSeconds 60000 100))
  ∧ (generateAndSendOtp [sampleCooldownUser] "c@x.com" 0 1500 none none).1
      = .error (.throttled (remainingSeconds 60000 1500))
  ∧ remainingSeconds 60000 1500 < remainingSeconds 60000 100 := by
  obtain ⟨h1, h2, h3, h4, h5, h6⟩ :=
    C6_amended_throttle_report [sampleCooldownUser] "c@x.com" 0 none none
      sampleCooldownUser 60000 100 1500 rfl rfl (by decide) (by decide) (by decide)
  exact ⟨h1, h2, h5 (by decide)⟩

/-- Witness for the C8 theorem: issuing for `sampleFreshUser` (no cooldown
set) at t = 0 succeeds with cooldown 60 and the updated record carries the
code, expiry 300000 and cooldown 60000. -/
theorem C8_issue_witness :
    (generateAndSendOtp [sampleFreshUser] "b@x.com" 0 0 none none).1
      = .ok ⟨"OTP sent to email", 60⟩
  ∧ findOne (generateAndSendOtp [sampleFreshUser] "b@x.com" 0 0 none none).2
      (normalizeEmail "b@x.com")
      = some (applyOtpIssue sampleFreshUser (generateOtp 0)
          (0 + 5 * 60 * 1000) (0 + 60 * 1000)) := by
  obtain ⟨h1, h2, h3⟩ :=
    C8_issue_sets_fields_in_one_write [sampleFreshUser] "b@x.com" 0 0
      sampleFreshUser rfl rfl
  exact ⟨h1, h3⟩

/-- Witness for the C10 theorem: `sampleCooldownUser`'s code is already
expired (t = 50) yet the attempt at t = 100 is throttled; `sampleUser`'s
code is still unexpired at t = 5 yet issuance succeeds and overwrites it,
since no cooldown is set. -/
theorem C10_cooldown_gate_witness :
    generateAndSendOtp [sampleCooldownUser] "c@x.com" 0 100 none none
      = (.error (.throttled (remainingSeconds 60000 100)), [sampleCooldownUser])
  ∧ (generateAndSendOtp [sampleUser] "a@x.com" 0 5 none none).1
      = .ok ⟨"OTP sent to email", 60⟩ := by
  refine ⟨(C10_cooldown_gate_ignores_expiry [sampleCooldownUser] "c@x.com" 0 100
      sampleCooldownUser rfl).1 60000 rfl (by decide), ?_⟩
  exact ((C10_cooldown_gate_ignores_expiry [sampleUser] "a@x.com" 0 5
      sampleUser rfl).2 rfl).1

end RestaurantApp
